import Mathlib

/-!
Shallow embedding of the session/broadcast coordinator
(`src/server/ws/src/client.ts`, class `ClientSession`) and proofs of the
specified properties.

The single source file defines the `ClientSession` class.  Collaborators it
imports (`@hcengineering/core`'s `TxProcessor`/`TxFactory`, the pipeline's
model store, the transport send helper) are not part of the source tree;
those are modelled from the spec, and each such definition says so in its
doc comment.  Everything else is translated directly from the source.
-/

/-- Statistics snapshot held by a session: `{ find: number, tx: number }`
(`StatisticsElement` in the source). -/
structure StatisticsElement where
  find : Nat
  tx : Nat
deriving DecidableEq, Repr

/-- Modelled from the spec: an in-flight request descriptor, keyed by
request id in the session's live request map (`SessionRequest` lives in the
untracked `types.ts`). -/
structure SessionRequest where
  reqId : String
deriving DecidableEq, Repr

/-- One entry of the `measures` array: `{ id: string, message: string, time: 0 }`. -/
structure Measure where
  id : String
  message : String
  time : Nat
deriving DecidableEq, Repr

/-- The mutable per-session state of `ClientSession`: every field the class
declares (the injected constructor collaborators `token`, `_pipeline` are
passed separately to the operations; `workspaceId` and `branding` are kept
here as the constructor stores them on the instance). -/
structure Session where
  createTime : Nat
  requests : List (String × SessionRequest)
  binaryMode : Bool
  useCompression : Bool
  sessionId : String
  lastRequest : Nat
  total : StatisticsElement
  current : StatisticsElement
  mins5 : StatisticsElement
  measures : List Measure
  workspaceId : String
  branding : Option String
deriving DecidableEq, Repr

/-- Field initialisers of `ClientSession`: `createTime = Date.now()`,
empty request map, `binaryMode = false`, `useCompression = true`,
`sessionId = ''`, `lastRequest = Date.now()`, all counters zero. -/
def mkClientSession (now : Nat) (workspaceId : String) (branding : Option String) :
    Session where
  createTime := now
  requests := []
  binaryMode := false
  useCompression := true
  sessionId := ""
  lastRequest := now
  total := ⟨0, 0⟩
  current := ⟨0, 0⟩
  mins5 := ⟨0, 0⟩
  measures := []
  workspaceId := workspaceId
  branding := branding

/-- The authenticated token: email plus the optional extra-claims consulted
by the session (`extra?.admin`, `extra?.model`, `extra?.mode`). -/
structure Token where
  email : String
  extraAdmin : Option String
  extraModel : Option String
  extraMode : Option String
deriving DecidableEq, Repr

/-- The admin-privilege test used throughout the source:
`this.token.extra?.admin === 'true'`. -/
def isAdmin (t : Token) : Bool :=
  t.extraAdmin == some "true"

/-- Account roles (`AccountRole` from the core package); the session only
ever writes `Owner`. -/
inductive AccountRole where
  | DocGuest
  | Guest
  | User
  | Maintainer
  | Owner
deriving DecidableEq, Repr

/-- An account document in the model store: its reference (`_id`), its
`email` attribute and its `role` attribute. -/
structure AccountDoc where
  ref : String
  email : String
  role : AccountRole
deriving DecidableEq, Repr

/-- The model store holding account documents, read through
`pipeline.context.modelDb`. -/
structure ModelDb where
  accounts : List AccountDoc
deriving DecidableEq, Repr

/-- Modelled from the spec: `modelDb.getAccountByEmail(email)` — look an
account up by its email attribute (absent result when none matches). -/
def getAccountByEmail (db : ModelDb) (email : String) : Option AccountDoc :=
  db.accounts.find? fun a => a.email == email

/-- Modelled from the spec: `modelDb.findObject(ref)` — look a document up
by its reference. -/
def findObject (db : ModelDb) (ref : String) : Option AccountDoc :=
  db.accounts.find? fun a => a.ref == ref

/-- The creation transaction built by
`factory.createTxCreateDoc(core.class.Account, core.space.Model, attrs, objectId)`:
target class, space, the two attributes, and the explicit object id. -/
structure TxCreateDoc where
  objectClass : String
  objectSpace : String
  role : AccountRole
  email : String
  objectId : String
deriving DecidableEq, Repr

/-- Modelled from the spec: `TxProcessor.createDoc2Doc(createTx)` converts a
creation transaction into its resulting document — the document keyed by the
transaction's object id, carrying the transaction's attributes. -/
def createDoc2Doc (t : TxCreateDoc) : AccountDoc where
  ref := t.objectId
  email := t.email
  role := t.role

/-- Modelled from the spec: the pipeline persists a submitted creation
transaction and maintains the model, so the resulting document becomes
visible in the model store afterwards. -/
def pipelineApplyCreate (db : ModelDb) (t : TxCreateDoc) : ModelDb where
  accounts := db.accounts ++ [createDoc2Doc t]

/-- A transaction as the broadcast path inspects it.  Modelled from the
spec's tagged-variant reading of the core transaction types: a plain
create/update/delete change carries its target class; a collection/envelope
transaction is itself a create/update/delete change on its own target class
and wraps an inner transaction; anything else is a non-CUD transaction. -/
inductive Tx where
  | cud (objectClass : String) : Tx
  | wrapped (objectClass : String) (inner : Tx) : Tx
  | other : Tx
deriving DecidableEq, Repr

/-- Modelled from the spec: `TxProcessor.isExtendsCUD(tx._class)` together
with the `objectClass` read — the target class when the transaction is a
create/update/delete-style change, absent otherwise. -/
def cudClass? : Tx → Option String
  | Tx.cud c => some c
  | Tx.wrapped c _ => some c
  | Tx.other => none

/-- Modelled from the spec: `TxProcessor.extractTx(tx)` unwraps an envelope
transaction to its inner payload and returns any other transaction
unchanged. -/
def extractTx : Tx → Tx
  | Tx.wrapped _ inner => inner
  | t => t

/-- Insertion into the `Set` of affected classes: a JS `Set` keeps first
insertion order, which `Array.from` then reproduces. -/
def addClass (acc : List String) (c : String) : List String :=
  if c ∈ acc then acc else acc ++ [c]

/-- One loop iteration of the class collection in `broadcast`: record the
outer transaction's target class when it is a CUD change, then the
extracted transaction's target class when that is a CUD change. -/
def collectStep (acc : List String) (dtx : Tx) : List String :=
  let acc1 := match cudClass? dtx with
    | some c => addClass acc c
    | none => acc
  match cudClass? (extractTx dtx) with
  | some c => addClass acc1 c
  | none => acc1

/-- The full class-collection loop of `broadcast` over the batch. -/
def collectClasses (txs : List Tx) : List String :=
  txs.foldl collectStep []

/-- What `broadcast` hands to the transport: either a direct
`socket.send(ctx, { result: [bevent] }, binary, compression)` of the
compacted broadcast event (carrying the distinct affected classes), or a
`handleSend(ctx, socket, { result: tx }, 1024*1024, binary, compression)`
of the full batch through the bounded send helper. -/
inductive SendOp where
  | sendCompacted (classes : List String) (binary : Bool) (compression : Bool) : SendOp
  | sendFull (txs : List Tx) (limit : Nat) (binary : Bool) (compression : Bool) : SendOp
deriving DecidableEq, Repr

/-- The number of declared parameters of the `tx (ctx, tx)` method.  The
source's guard reads `this.tx.length`: `this.tx` is the method itself, and
a JavaScript function's `length` is its declared parameter count, 2. -/
def txMethodParamCount : Nat := 2

namespace ClientSession

/-- `broadcast (ctx, socket, tx)`, translated from the source including its
guard `this.tx.length > 10000` (see `txMethodParamCount`): the method
mutates no session field and emits exactly one send operation. -/
def broadcast (s : Session) (txs : List Tx) : Session × List SendOp :=
  if txMethodParamCount > 10000 then
    (s, [SendOp.sendCompacted (collectClasses txs) s.binaryMode s.useCompression])
  else
    (s, [SendOp.sendFull txs (1024 * 1024) s.binaryMode s.useCompression])

/-- Events observable from `getAccount`: the session-context injection, a
transaction batch submitted to the pipeline, and the response sent to the
caller (an account document or the absent result). -/
inductive GAEvent where
  | includeContext : GAEvent
  | pipelineTx (txs : List TxCreateDoc) : GAEvent
  | sendResponse (r : Option AccountDoc) : GAEvent
deriving DecidableEq, Repr

/-- `getAccount (ctx)`, translated from the source: look the account up by
email; when absent and the caller is admin, try the raw email as a
reference; when that is also absent, build the `system:<email>` creation
transaction, submit it through the pipeline and answer with its resulting
document; otherwise answer with whatever was found (possibly absent). -/
def getAccount (s : Session) (t : Token) (db : ModelDb) :
    Session × ModelDb × List GAEvent :=
  match getAccountByEmail db t.email with
  | some account => (s, db, [GAEvent.sendResponse (some account)])
  | none =>
    if isAdmin t then
      match findObject db t.email with
      | some systemAccount => (s, db, [GAEvent.sendResponse (some systemAccount)])
      | none =>
        let createTx : TxCreateDoc :=
          { objectClass := "core:class:Account"
            objectSpace := "core:space:Model"
            role := AccountRole.Owner
            email := "system:" ++ t.email
            objectId := t.email }
        let db1 := pipelineApplyCreate db createTx
        let acc := createDoc2Doc createTx
        (s, db1,
          [GAEvent.includeContext, GAEvent.pipelineTx [createTx],
            GAEvent.sendResponse (some acc)])
    else
      (s, db, [GAEvent.sendResponse none])

/-- Number of pipeline submissions in a `getAccount` trace. -/
def pipelineWrites (evs : List GAEvent) : Nat :=
  (evs.filter fun e => match e with
    | GAEvent.pipelineTx _ => true
    | _ => false).length

/-- The responses sent to the caller in a `getAccount` trace, in order. -/
def responses (evs : List GAEvent) : List (Option AccountDoc) :=
  evs.filterMap fun e => match e with
    | GAEvent.sendResponse r => some r
    | _ => none

/-- `ping (ctx)`: update `lastRequest` and answer `'pong!'`. -/
def ping (s : Session) (now : Nat) : Session × String :=
  ({ s with lastRequest := now }, "pong!")

/-- Events observable from `loadModel`. -/
inductive LMEvent where
  | includeContext : LMEvent
  | pipelineLoadModel : LMEvent
  | sendResponse : LMEvent
deriving DecidableEq, Repr

/-- `loadModel (ctx, lastModelTx, hash)`: inject the session context,
forward to the pipeline and answer with its result; no session field is
written. -/
def loadModel (s : Session) : Session × List LMEvent :=
  (s, [LMEvent.includeContext, LMEvent.pipelineLoadModel, LMEvent.sendResponse])

/-- `findAllRaw (ctx, _class, query, options)`: update `lastRequest`,
increment the total and current find counters, inject the session context
and forward to the pipeline (whose result is the caller's). -/
def findAllRaw (s : Session) (now : Nat) : Session :=
  { s with
    lastRequest := now
    total := { s.total with find := s.total.find + 1 }
    current := { s.current with find := s.current.find + 1 } }

/-- `findAll (ctx, _class, query, options)` forwards to `findAllRaw` and
sends the result; its session-state effect is exactly `findAllRaw`'s. -/
def findAll (s : Session) (now : Nat) : Session :=
  findAllRaw s now

/-- `searchFulltext (ctx, query, options)`: update `lastRequest`, inject
the session context and forward to the pipeline; no counter is touched. -/
def searchFulltext (s : Session) (now : Nat) : Session :=
  { s with lastRequest := now }

/-- Events observable from the `tx` method, in call order. -/
inductive TxEvent where
  | includeContext : TxEvent
  | pipelineTx (txs : List Tx) : TxEvent
  | sendResponse (result : List Tx) : TxEvent
  | handleBroadcast : TxEvent
deriving DecidableEq, Repr

/-- `tx (ctx, tx)`, translated from the source: update `lastRequest`,
increment the total and current transaction counters, inject the session
context, submit the single transaction, send the pipeline's result
(`result` parametrises what the external pipeline returned), then invoke
the pipeline's broadcast flush. -/
def tx (s : Session) (now : Nat) (t : Tx) (result : List Tx) :
    Session × List TxEvent :=
  ({ s with
      lastRequest := now
      total := { s.total with tx := s.total.tx + 1 }
      current := { s.current with tx := s.current.tx + 1 } },
    [TxEvent.includeContext, TxEvent.pipelineTx [t],
      TxEvent.sendResponse result, TxEvent.handleBroadcast])

end ClientSession

/-- Pointwise order on the six statistics counters of a session. -/
def statsLe (a b : Session) : Prop :=
  a.total.find ≤ b.total.find ∧ a.total.tx ≤ b.total.tx ∧
  a.current.find ≤ b.current.find ∧ a.current.tx ≤ b.current.tx ∧
  a.mins5.find ≤ b.mins5.find ∧ a.mins5.tx ≤ b.mins5.tx

instance (a b : Session) : Decidable (statsLe a b) := by
  unfold statsLe
  infer_instance

/-- A concrete freshly-constructed session, used by the concrete witnesses. -/
def sInit : Session := mkClientSession 0 "ws1" none

/-- A concrete admin token. -/
def tAdmin : Token := { email := "root@x", extraAdmin := some "true",
                        extraModel := none, extraMode := none }

/-- A concrete non-admin token. -/
def tPlain : Token := { email := "u@x", extraAdmin := none,
                        extraModel := none, extraMode := none }

/-- A concrete empty model store. -/
def dbEmpty : ModelDb := ⟨[]⟩

/-- A concrete batch of 10001 create-transactions, all targeting one class. -/
def bigBatch : List Tx := List.replicate 10001 (Tx.cud "classA")

/-- C1: the claim fails on the code.  The guard reads `this.tx.length`, the
parameter count (2) of the `tx` method, never the batch length, so even a
batch of 10001 transactions is sent in full through the bounded send helper
and no compacted broadcast event is produced. -/
theorem broadcast_large_batch_sends_full_batch :
    (ClientSession.broadcast sInit bigBatch).2 =
      [SendOp.sendFull bigBatch (1024 * 1024) false true] := rfl

/-- C2: for a batch of at most 10000 transactions, `broadcast` emits exactly
one send of the full batch, verbatim, through the bounded send helper with
the session's binary and compression flags; no compacted event is produced. -/
theorem broadcast_small_batch_verbatim (s : Session) (txs : List Tx)
    (h : txs.length ≤ 10000) :
    ClientSession.broadcast s txs =
      (s, [SendOp.sendFull txs (1024 * 1024) s.binaryMode s.useCompression]) := rfl

/-- Witness for C2 at a concrete 3-transaction batch. -/
theorem broadcast_small_batch_verbatim_witness :
    [Tx.cud "A", Tx.cud "B", Tx.cud "A"].length ≤ 10000 ∧
    ClientSession.broadcast sInit [Tx.cud "A", Tx.cud "B", Tx.cud "A"] =
      (sInit, [SendOp.sendFull [Tx.cud "A", Tx.cud "B", Tx.cud "A"]
        (1024 * 1024) false true]) :=
  ⟨by decide, broadcast_small_batch_verbatim sInit _ (by decide)⟩

/-- C8: `searchFulltext` changes none of the three find counters and sets
the last-activity timestamp to the call time. -/
theorem searchFulltext_no_find_stats (s : Session) (now : Nat) :
    (ClientSession.searchFulltext s now).total.find = s.total.find ∧
    (ClientSession.searchFulltext s now).current.find = s.current.find ∧
    (ClientSession.searchFulltext s now).mins5.find = s.mins5.find ∧
    (ClientSession.searchFulltext s now).lastRequest = now :=
  ⟨rfl, rfl, rfl, rfl⟩

/-- C7: `findAll` bumps the total and current find counters by exactly one
and moves `lastRequest` forward; `tx` does the same for the total and
current transaction counters. -/
theorem findAll_tx_increment_stats (s : Session) (now : Nat) (t0 : Tx)
    (res : List Tx) (h : s.lastRequest ≤ now) :
    (ClientSession.findAll s now).total.find = s.total.find + 1 ∧
    (ClientSession.findAll s now).current.find = s.current.find + 1 ∧
    s.lastRequest ≤ (ClientSession.findAll s now).lastRequest ∧
    (ClientSession.tx s now t0 res).1.total.tx = s.total.tx + 1 ∧
    (ClientSession.tx s now t0 res).1.current.tx = s.current.tx + 1 ∧
    s.lastRequest ≤ (ClientSession.tx s now t0 res).1.lastRequest :=
  ⟨rfl, rfl, h, rfl, rfl, h⟩

/-- Witness for C7 at a fresh session and call time 5. -/
theorem findAll_tx_increment_stats_witness :
    sInit.lastRequest ≤ 5 ∧
    ((ClientSession.findAll sInit 5).total.find = sInit.total.find + 1 ∧
    (ClientSession.findAll sInit 5).current.find = sInit.current.find + 1 ∧
    sInit.lastRequest ≤ (ClientSession.findAll sInit 5).lastRequest ∧
    (ClientSession.tx sInit 5 Tx.other []).1.total.tx = sInit.total.tx + 1 ∧
    (ClientSession.tx sInit 5 Tx.other []).1.current.tx = sInit.current.tx + 1 ∧
    sInit.lastRequest ≤ (ClientSession.tx sInit 5 Tx.other []).1.lastRequest) :=
  ⟨by decide, findAll_tx_increment_stats sInit 5 Tx.other [] (by decide)⟩

/-- The `getAccount` method never writes any session field. -/
lemma getAccount_fst (s : Session) (t : Token) (db : ModelDb) :
    (ClientSession.getAccount s t db).1 = s := by
  unfold ClientSession.getAccount
  split
  · rfl
  · split
    · split <;> rfl
    · rfl

/-- The `broadcast` method never writes any session field. -/
lemma broadcast_fst (s : Session) (txs : List Tx) :
    (ClientSession.broadcast s txs).1 = s := rfl

/-- C9: every session operation leaves all six statistics counters at or
above their previous values — none decreases or resets a counter. -/
theorem counters_monotone (s : Session) (now : Nat) (t : Token) (db : ModelDb)
    (t0 : Tx) (res : List Tx) (txs : List Tx) :
    statsLe s (ClientSession.ping s now).1 ∧
    statsLe s (ClientSession.loadModel s).1 ∧
    statsLe s (ClientSession.getAccount s t db).1 ∧
    statsLe s (ClientSession.findAll s now) ∧
    statsLe s (ClientSession.searchFulltext s now) ∧
    statsLe s (ClientSession.tx s now t0 res).1 ∧
    statsLe s (ClientSession.broadcast s txs).1 := by
  refine ⟨?_, ?_, ?_, ?_, ?_, ?_, ?_⟩ <;>
    simp only [ClientSession.ping, ClientSession.loadModel, getAccount_fst,
      ClientSession.findAll, ClientSession.findAllRaw, ClientSession.searchFulltext,
      ClientSession.tx, broadcast_fst, statsLe] <;>
    omega

/-- C10: `broadcast` writes no session-owned state: statistics snapshots,
the last-activity timestamp and the live request map all keep their
pre-call values. -/
theorem broadcast_frame (s : Session) (txs : List Tx) :
    (ClientSession.broadcast s txs).1.total = s.total ∧
    (ClientSession.broadcast s txs).1.current = s.current ∧
    (ClientSession.broadcast s txs).1.mins5 = s.mins5 ∧
    (ClientSession.broadcast s txs).1.lastRequest = s.lastRequest ∧
    (ClientSession.broadcast s txs).1.requests = s.requests :=
  ⟨rfl, rfl, rfl, rfl, rfl⟩

/-- C3: a non-admin caller whose email has no account document gets the
absent response, the model store is untouched and no transaction is
submitted to the pipeline. -/
theorem getAccount_absent_nonadmin (s : Session) (t : Token) (db : ModelDb)
    (h1 : getAccountByEmail db t.email = none) (h2 : isAdmin t = false) :
    ClientSession.getAccount s t db =
      (s, db, [ClientSession.GAEvent.sendResponse none]) ∧
    ClientSession.pipelineWrites (ClientSession.getAccount s t db).2.2 = 0 := by
  have e : ClientSession.getAccount s t db =
      (s, db, [ClientSession.GAEvent.sendResponse none]) := by
    unfold ClientSession.getAccount
    rw [h1, h2]
    rfl
  exact ⟨e, by rw [e]; rfl⟩

/-- Witness for C3: a non-admin token against the empty model store. -/
theorem getAccount_absent_nonadmin_witness :
    getAccountByEmail dbEmpty tPlain.email = none ∧
    isAdmin tPlain = false ∧
    (ClientSession.getAccount sInit tPlain dbEmpty =
      (sInit, dbEmpty, [ClientSession.GAEvent.sendResponse none]) ∧
    ClientSession.pipelineWrites (ClientSession.getAccount sInit tPlain dbEmpty).2.2 = 0) :=
  ⟨by decide, by decide, getAccount_absent_nonadmin sInit tPlain dbEmpty (by decide) (by decide)⟩

/-- C4: an admin caller with no account under their email and no document
under the raw email reference triggers exactly one pipeline creation, and
the response is the document referenced by the raw email whose email
attribute is `system:<caller email>` and whose role is `Owner`. -/
theorem getAccount_admin_synthesizes (s : Session) (t : Token) (db : ModelDb)
    (h1 : getAccountByEmail db t.email = none) (h2 : isAdmin t = true)
    (h3 : findObject db t.email = none) :
    ClientSession.pipelineWrites (ClientSession.getAccount s t db).2.2 = 1 ∧
    ClientSession.responses (ClientSession.getAccount s t db).2.2 =
      [some { ref := t.email, email := "system:" ++ t.email,
              role := AccountRole.Owner }] := by
  have e : ClientSession.getAccount s t db =
      (s, pipelineApplyCreate db
            { objectClass := "core:class:Account", objectSpace := "core:space:Model",
              role := AccountRole.Owner, email := "system:" ++ t.email,
              objectId := t.email },
        [ClientSession.GAEvent.includeContext,
          ClientSession.GAEvent.pipelineTx
            [{ objectClass := "core:class:Account", objectSpace := "core:space:Model",
               role := AccountRole.Owner, email := "system:" ++ t.email,
               objectId := t.email }],
          ClientSession.GAEvent.sendResponse
            (some { ref := t.email, email := "system:" ++ t.email,
                    role := AccountRole.Owner })]) := by
    unfold ClientSession.getAccount
    rw [h1, h2, h3]
    rfl
  rw [e]
  exact ⟨rfl, rfl⟩

/-- Witness for C4: an admin token against the empty model store. -/
theorem getAccount_admin_synthesizes_witness :
    getAccountByEmail dbEmpty tAdmin.email = none ∧
    isAdmin tAdmin = true ∧
    findObject dbEmpty tAdmin.email = none ∧
    (ClientSession.pipelineWrites (ClientSession.getAccount sInit tAdmin dbEmpty).2.2 = 1 ∧
    ClientSession.responses (ClientSession.getAccount sInit tAdmin dbEmpty).2.2 =
      [some { ref := tAdmin.email, email := "system:" ++ tAdmin.email,
              role := AccountRole.Owner }]) :=
  ⟨by decide, by decide, by decide,
    getAccount_admin_synthesizes sInit tAdmin dbEmpty (by decide) (by decide) (by decide)⟩

/-- C6: in the `tx` method's call sequence the response carrying the
pipeline's result is present, the broadcast flush is present, and every
occurrence of the former precedes every occurrence of the latter. -/
theorem tx_reply_before_broadcast (s : Session) (now : Nat) (t0 : Tx)
    (res : List Tx) :
    ClientSession.TxEvent.sendResponse res ∈ (ClientSession.tx s now t0 res).2 ∧
    ClientSession.TxEvent.handleBroadcast ∈ (ClientSession.tx s now t0 res).2 ∧
    ∀ i j : Nat,
      ((ClientSession.tx s now t0 res).2)[i]? =
        some (ClientSession.TxEvent.sendResponse res) →
      ((ClientSession.tx s now t0 res).2)[j]? =
        some ClientSession.TxEvent.handleBroadcast →
      i < j := by
  refine ⟨by simp [ClientSession.tx], by simp [ClientSession.tx], ?_⟩
  intro i j hi hj
  have hi2 : i = 2 := by
    rcases i with _ | _ | _ | _ | i <;> simp [ClientSession.tx] at hi
    rfl
  have hj3 : j = 3 := by
    rcases j with _ | _ | _ | _ | j <;> simp [ClientSession.tx] at hj
    rfl
  omega

/-- Witness for C6: the concrete trace of one `tx` call puts the response
at position 2 and the broadcast flush at position 3. -/
theorem tx_reply_before_broadcast_witness : (2 : Nat) < 3 :=
  (tx_reply_before_broadcast sInit 7 Tx.other []).2.2 2 3 (by rfl) (by rfl)

/-- The derived `system:` email can never collide with the raw email it was
derived from: prefixing strictly lengthens the string. -/
lemma system_email_ne (e : String) : ("system:" ++ e) ≠ e := by
  intro h
  have hl := congrArg String.length h
  have h7 : ("system:").length = 7 := rfl
  rw [String.length_append, h7] at hl
  omega

/-- C5: after a first admin call synthesized the system account, a second
call finds the document under the raw-email reference: the store is left
as the first call left it, no further pipeline write happens, and the
response repeats the first call's document. -/
theorem getAccount_idempotent (s : Session) (t : Token) (db : ModelDb)
    (h1 : getAccountByEmail db t.email = none) (h2 : isAdmin t = true)
    (h3 : findObject db t.email = none) :
    (ClientSession.getAccount s t (ClientSession.getAccount s t db).2.1).2.1 =
      (ClientSession.getAccount s t db).2.1 ∧
    ClientSession.pipelineWrites
      (ClientSession.getAccount s t (ClientSession.getAccount s t db).2.1).2.2 = 0 ∧
    ClientSession.responses
      (ClientSession.getAccount s t (ClientSession.getAccount s t db).2.1).2.2 =
      ClientSession.responses (ClientSession.getAccount s t db).2.2 := by
  set d : AccountDoc :=
    { ref := t.email, email := "system:" ++ t.email, role := AccountRole.Owner } with hd
  have e1 : ClientSession.getAccount s t db =
      (s, ⟨db.accounts ++ [d]⟩,
        [ClientSession.GAEvent.includeContext,
          ClientSession.GAEvent.pipelineTx
            [{ objectClass := "core:class:Account", objectSpace := "core:space:Model",
               role := AccountRole.Owner, email := "system:" ++ t.email,
               objectId := t.email }],
          ClientSession.GAEvent.sendResponse (some d)]) := by
    unfold ClientSession.getAccount
    rw [h1, h2, h3]
    rfl
  have g1 : getAccountByEmail ⟨db.accounts ++ [d]⟩ t.email = none := by
    unfold getAccountByEmail at h1 ⊢
    rw [List.find?_append, h1]
    simp [hd, system_email_ne t.email]
  have g2 : findObject ⟨db.accounts ++ [d]⟩ t.email = some d := by
    unfold findObject at h3 ⊢
    rw [List.find?_append, h3]
    simp [hd]
  have e2 : ClientSession.getAccount s t ⟨db.accounts ++ [d]⟩ =
      (s, ⟨db.accounts ++ [d]⟩, [ClientSession.GAEvent.sendResponse (some d)]) := by
    unfold ClientSession.getAccount
    rw [g1, h2, g2]
    rfl
  have p1 : (ClientSession.getAccount s t db).2.1 = ⟨db.accounts ++ [d]⟩ := by
    rw [e1]
  have p2 : ClientSession.responses (ClientSession.getAccount s t db).2.2 =
      [some d] := by
    rw [e1]
    rfl
  rw [p1, e2, p2]
  exact ⟨rfl, rfl, rfl⟩

/-- Witness for C5: two admin calls against the initially empty store. -/
theorem getAccount_idempotent_witness :
    getAccountByEmail dbEmpty tAdmin.email = none ∧
    isAdmin tAdmin = true ∧
    findObject dbEmpty tAdmin.email = none ∧
    ((ClientSession.getAccount sInit tAdmin
        (ClientSession.getAccount sInit tAdmin dbEmpty).2.1).2.1 =
      (ClientSession.getAccount sInit tAdmin dbEmpty).2.1 ∧
    ClientSession.pipelineWrites
      (ClientSession.getAccount sInit tAdmin
        (ClientSession.getAccount sInit tAdmin dbEmpty).2.1).2.2 = 0 ∧
    ClientSession.responses
      (ClientSession.getAccount sInit tAdmin
        (ClientSession.getAccount sInit tAdmin dbEmpty).2.1).2.2 =
      ClientSession.responses (ClientSession.getAccount sInit tAdmin dbEmpty).2.2) :=
  ⟨by decide, by decide, by decide,
    getAccount_idempotent sInit tAdmin dbEmpty (by decide) (by decide) (by decide)⟩
